import Mathlib

/-!
# reminders-cli: background saver and background notifier

Shallow embedding of `server/services/background.go`.

* Go's `time.Time` is a wall-clock instant counted in nanoseconds since the Unix
  epoch and `time.Duration` is a count of nanoseconds; `UnixNano` is the exact
  count (Go leaves it undefined outside the years 1678..2262, and the model
  does not give a meaning to that case).
* `time.Now()` is an effect: the k-th call made by the process reads
  `clock k`, and the world counts the calls made so far.
* The collaborators (`saver`, `snapshotManager`, `HTTPNotifierClient`) are
  interfaces: they are arbitrary state transformers over a state `σ`.
* Every observable action (collaborator call, ticker stop, log line, channel
  send, goroutine start) is recorded, in program order, as an `Event`.
-/

namespace Reminders

namespace time

/-- Go `time.Duration`: a signed count of nanoseconds. -/
abbrev Duration := Int

/-- Go `time.Second`. -/
def Second : Duration := 1000000000

/-- Go `time.Time`: the wall-clock instant, in nanoseconds since the Unix epoch. -/
structure Time where
  wall : Int
deriving DecidableEq, Repr

/-- Go `Time.Add`. -/
def Time.Add (t : Time) (d : Duration) : Time := ⟨t.wall + d⟩

/-- Go `Time.UnixNano`. -/
def Time.UnixNano (t : Time) : Int := t.wall

end time

/-- The clock of the process: `clock k` is what the k-th call of `time.Now()` returns. -/
abbrev Clock := Nat → time.Time

/-- Go `error` values (non-nil); a nil error is `none : Option Error`. -/
inductive Error where
  | plain (msg : String)
  | wrapped (customMsg : String) (originalErr : Error)
deriving DecidableEq, Repr

/-- Modelled from the spec: `models.WrapError` is declared in package `models`,
which is not part of the sources at hand. The spec says the transport error is
wrapped and returned, so the result is a (non-nil) error that carries the
message and the original error. -/
def WrapError (customMsg : String) (originalErr : Error) : Error :=
  Error.wrapped customMsg originalErr

/-- Modelled from the spec: `models.Reminder` is declared in package `models`,
which is not part of the sources at hand. The spec lists an identifier, a
duration, a last-modified timestamp and a completion flag; `background.go`
reads `ID`, `Duration` and `ModifiedAt`. -/
structure Reminder where
  ID : Int
  Duration : time.Duration
  ModifiedAt : time.Time
  Completed : Bool
deriving DecidableEq, Repr

/-- The zero value of `models.Reminder`. -/
def Reminder.zero : Reminder := ⟨0, 0, ⟨0⟩, false⟩

/-- Modelled from the spec: the map type behind `Snapshot.UnCompleted` is
declared elsewhere in package `services`. The spec describes it as the
reminders not yet completed, keyed by identifier; a Go map is modelled as an
association list, and the order of the list stands for the (unspecified)
order in which `range` visits the keys. -/
abbrev RemindersMap := List (Int × Reminder)

/-- The keys visited by `for id := range m`. -/
def RemindersMap.keys (m : RemindersMap) : List Int := m.map Prod.fst

/-- Modelled from the spec: `flatten` is declared elsewhere in package
`services`; `Start` keeps only its second result, the reminder stored under the
key. A key that is absent yields the zero value, as a Go map read does. -/
def RemindersMap.flatten (m : RemindersMap) (id : Int) : Int × Reminder :=
  match m.lookup id with
  | some r => (id, r)
  | none => (id, Reminder.zero)

/-- Modelled from the spec: `Snapshot` is declared elsewhere in package
`services`; `background.go` reads its `UnCompleted` field. -/
structure Snapshot where
  UnCompleted : RemindersMap
deriving DecidableEq, Repr

/-- An argument of `log.Printf`. -/
inductive LogArg where
  | int (n : Int)
  | err (e : Error)
deriving DecidableEq, Repr

/-- One call of `log.Println` / `log.Printf`: the format string and its arguments. -/
structure LogEntry where
  format : String
  args : List LogArg
deriving DecidableEq, Repr

/-- The observable actions of `background.go`, recorded in program order. -/
inductive Event where
  /-- A line written with package `log`. -/
  | log (e : LogEntry)
  /-- The call `s.ticker.Stop()`. -/
  | tickerStop
  /-- The call `s.service.save()`. -/
  | save
  /-- The call `s.service.snapshot()`. -/
  | snapshot
  /-- The call `s.service.snapshotGrooming(rs...)`. -/
  | snapshotGrooming (rs : List Reminder)
  /-- The call `s.service.retry(r, d)`. -/
  | retry (r : Reminder) (d : time.Duration)
  /-- The call `s.Client.Notify(r)`. -/
  | Notify (r : Reminder)
  /-- The channel send `s.notified <- r`. -/
  | send (r : Reminder)
  /-- The statement `go func() ... ()` whose closure captured `reminder = r`. -/
  | go (r : Reminder)
deriving DecidableEq, Repr

/-- Interface `saver`. -/
structure saver (σ : Type) where
  save : σ → Option Error × σ

/-- Interface `HTTPNotifierClient`. -/
structure HTTPNotifierClient (σ : Type) where
  Notify : Reminder → σ → (time.Duration × Option Error) × σ

/-- Interface `snapshotManager`. -/
structure snapshotManager (σ : Type) where
  snapshot : σ → Snapshot × σ
  snapshotGrooming : List Reminder → σ → σ
  retry : Reminder → time.Duration → σ → σ

/-- The state outside `background.go`: the collaborators' state and the number
of `time.Now()` calls made so far. -/
structure World (σ : Type) where
  ext : σ
  reads : Nat

/-- What running a piece of code yields: its value, the events it emitted (in
order) and the world it leaves. -/
structure Outcome (σ : Type) (α : Type) where
  val : α
  events : List Event
  world : World σ

/-- Go `time.Now()`: reads the clock and counts the call. -/
def time.Now {σ : Type} (clock : Clock) (w : World σ) : time.Time × World σ :=
  (clock w.reads, { w with reads := w.reads + 1 })

/-- Struct `BackgroundSaver`; the ticker is represented by its period. -/
structure BackgroundSaver (σ : Type) where
  ticker : time.Duration
  service : saver σ

/-- `NewSaver`. -/
def NewSaver {σ : Type} (service : saver σ) : BackgroundSaver σ :=
  { ticker := 30 * time.Second, service := service }

/-- Struct `BackgroundNotifier`; the ticker is represented by its period, and
the channel `notified` by the `send` events and the `notified` select case. -/
structure BackgroundNotifier (σ : Type) where
  ticker : time.Duration
  service : snapshotManager σ
  Client : HTTPNotifierClient σ

/-- `NewNotifier`; the HTTP client that `NewHTTPClient(notifierURI)` builds is
passed in, since `NewHTTPClient` is declared elsewhere. -/
def NewNotifier {σ : Type} (httpClient : HTTPNotifierClient σ)
    (service : snapshotManager σ) : BackgroundNotifier σ :=
  { ticker := 1 * time.Second, service := service, Client := httpClient }

/-- How the body of a `for` loop ends: `next` goes on with the following
iteration, `exit` leaves the loop (`break` / `return`). -/
inductive Control where
  | next
  | exit
deriving DecidableEq, Repr

/-- Whether a `Start` loop is still running. -/
inductive LoopState where
  | running
  | exited
deriving DecidableEq, Repr

/-- The state a loop is in after a body that ended with the given control. -/
def LoopState.after : Control → LoopState
  | Control.next => LoopState.running
  | Control.exit => LoopState.exited

/-! ## BackgroundSaver -/

/-- The body of the `for` loop of `BackgroundSaver.Start`, run when the ticker fires. -/
def BackgroundSaver.loopBody {σ : Type} (s : BackgroundSaver σ) (w : World σ) :
    Outcome σ Control :=
  -- err := s.service.save()
  let res := s.service.save w.ext
  let w1 : World σ := { w with ext := res.2 }
  match res.1 with
  | some err =>
    ⟨Control.next,
      [Event.save,
       Event.log ⟨"could not save records in background: %v", [LogArg.err err]⟩], w1⟩
  | none => ⟨Control.next, [Event.save], w1⟩

/-- One tick of the loop of `BackgroundSaver.Start`, as a step on the loop state. -/
def BackgroundSaver.step {σ : Type} (s : BackgroundSaver σ) :
    LoopState → World σ → LoopState × List Event × World σ
  | LoopState.running, w =>
    let o := s.loopBody w
    (LoopState.after o.val, o.events, o.world)
  | LoopState.exited, w => (LoopState.exited, [], w)

/-- The loop of `BackgroundSaver.Start` over the first `ticks` firings of the ticker. -/
def BackgroundSaver.loop {σ : Type} (s : BackgroundSaver σ) :
    Nat → LoopState → World σ → LoopState × List Event × World σ
  | 0, st, w => (st, [], w)
  | n + 1, st, w =>
    let r1 := s.step st w
    let r2 := BackgroundSaver.loop s n r1.1 r1.2.2
    (r2.1, r1.2.1 ++ r2.2.1, r2.2.2)

/-- `BackgroundSaver.Start`, observed over the first `ticks` firings of the ticker. -/
def BackgroundSaver.Start {σ : Type} (s : BackgroundSaver σ) (ticks : Nat) (w : World σ) :
    LoopState × List Event × World σ :=
  let r := s.loop ticks LoopState.running w
  (r.1, Event.log ⟨"background saver started", []⟩ :: r.2.1, r.2.2)

/-- `BackgroundSaver.Stop`. -/
def BackgroundSaver.Stop {σ : Type} (s : BackgroundSaver σ) (w : World σ) :
    Outcome σ (Option Error) :=
  -- s.ticker.Stop(); err := s.service.save()
  let res := s.service.save w.ext
  let w1 : World σ := { w with ext := res.2 }
  match res.1 with
  | some err => ⟨some err, [Event.tickerStop, Event.save], w1⟩
  | none =>
    ⟨none, [Event.tickerStop, Event.save, Event.log ⟨"background saver stopped", []⟩], w1⟩

/-! ## BackgroundNotifier -/

/-- `BackgroundNotifier.notify`. The send on the unbuffered channel `notified`
is recorded as an event; it completes when the loop of `Start` takes the value
in its `notified` case. -/
def BackgroundNotifier.notify {σ : Type} (s : BackgroundNotifier σ) (r : Reminder)
    (w : World σ) : Outcome σ (Option Error) :=
  -- retryAfter, err := s.Client.Notify(r)
  let res := s.Client.Notify r w.ext
  let retryAfter := res.1.1
  match res.1.2 with
  | some err =>
    ⟨some (WrapError "could not notify reminder" err), [Event.Notify r],
      { w with ext := res.2 }⟩
  | none =>
    if retryAfter ≠ 0 then
      ⟨none, [Event.Notify r, Event.retry r retryAfter],
        { w with ext := s.service.retry r retryAfter res.2 }⟩
    else
      ⟨none, [Event.Notify r, Event.snapshotGrooming [r], Event.send r],
        { w with ext := s.service.snapshotGrooming [r] res.2 }⟩

/-- The body of the goroutine that `Start` spawns for a due reminder. -/
def BackgroundNotifier.attempt {σ : Type} (s : BackgroundNotifier σ) (reminder : Reminder)
    (w : World σ) : Outcome σ Unit :=
  let o := s.notify reminder w
  match o.val with
  | some _ =>
    ⟨(), o.events ++
      [Event.log ⟨"could not notify reminder with id %d", [LogArg.int reminder.ID]⟩],
      o.world⟩
  | none => ⟨(), o.events, o.world⟩

/-- The local `reminderTick` of `Start`: `reminder.ModifiedAt.Add(reminder.Duration).UnixNano()`. -/
def reminderTick (reminder : Reminder) : Int :=
  (reminder.ModifiedAt.Add reminder.Duration).UnixNano

/-- The body of `for id := range snapshot.UnCompleted` in `Start`: one scan of
one reminder. It reads the clock twice, once for `nowTick` and once for
`deltaTick`. -/
def BackgroundNotifier.scan {σ : Type} (clock : Clock) (snapshot : Snapshot)
    (w : World σ) (id : Int) : Outcome σ Unit :=
  let reminder := (snapshot.UnCompleted.flatten id).2
  let n1 := time.Now clock w
  let nowTick := n1.1.UnixNano
  let n2 := time.Now clock n1.2
  let deltaTick := (n2.1.Add time.Second).UnixNano
  if reminderTick reminder > nowTick && reminderTick reminder < deltaTick then
    ⟨(), [Event.go reminder], n2.2⟩
  else
    ⟨(), [], n2.2⟩

/-- The loop `for id := range snapshot.UnCompleted` over the keys still to visit. -/
def BackgroundNotifier.scanLoop {σ : Type} (clock : Clock) (snapshot : Snapshot) :
    List Int → World σ → Outcome σ Unit
  | [], w => ⟨(), [], w⟩
  | id :: ids, w =>
    let o1 := BackgroundNotifier.scan clock snapshot w id
    let o2 := BackgroundNotifier.scanLoop clock snapshot ids o1.world
    ⟨(), o1.events ++ o2.events, o2.world⟩

/-- The `case <-s.ticker.C` branch of `Start`: the tick handler. -/
def BackgroundNotifier.onTick {σ : Type} (s : BackgroundNotifier σ) (clock : Clock)
    (w : World σ) : Outcome σ Unit :=
  -- snapshot := s.service.snapshot()
  let res := s.service.snapshot w.ext
  let o := BackgroundNotifier.scanLoop clock res.1 res.1.UnCompleted.keys
    { w with ext := res.2 }
  ⟨(), Event.snapshot :: o.events, o.world⟩

/-- The world in which the scan at position `i` of a tick handler started in
`w` runs: the snapshot has been taken and every earlier scan has read the clock
twice. -/
def BackgroundNotifier.scanWorld {σ : Type} (s : BackgroundNotifier σ) (w : World σ)
    (i : Nat) : World σ :=
  { ext := (s.service.snapshot w.ext).2, reads := w.reads + 2 * i }

/-- The events of the scan at position `i` of the tick handler started in `w`
(none when the snapshot has no key at that position). -/
def BackgroundNotifier.scanEvents {σ : Type} (s : BackgroundNotifier σ) (clock : Clock)
    (w : World σ) (i : Nat) : List Event :=
  match (s.service.snapshot w.ext).1.UnCompleted.keys[i]? with
  | some id =>
    (BackgroundNotifier.scan clock (s.service.snapshot w.ext).1 (s.scanWorld w i) id).events
  | none => []

/-- The cases of the `select` in `BackgroundNotifier.Start`. -/
inductive Select where
  /-- The case `<-s.ticker.C`. -/
  | tick
  /-- The case `r := <-s.notified`. -/
  | notified (r : Reminder)
deriving DecidableEq, Repr

/-- The body of the `for` loop of `BackgroundNotifier.Start`, for the select
case that fired. -/
def BackgroundNotifier.loopBody {σ : Type} (s : BackgroundNotifier σ) (clock : Clock)
    (c : Select) (w : World σ) : Outcome σ Control :=
  match c with
  | Select.tick =>
    let o := s.onTick clock w
    ⟨Control.next, o.events, o.world⟩
  | Select.notified r =>
    ⟨Control.next,
      [Event.log ⟨"notified reminder with with: %d\n", [LogArg.int r.ID]⟩], w⟩

/-- What can happen next while `BackgroundNotifier.Start` runs: a select case
of the loop fires, or a goroutine spawned earlier runs its notify attempt. -/
inductive Action where
  | select (c : Select)
  | goroutine (reminder : Reminder)
deriving DecidableEq, Repr

/-- One step of the notifier: the loop state, the events and the world after
the action. A goroutine has no handle on the loop; whatever its attempt
returns stays inside its closure. -/
def BackgroundNotifier.step {σ : Type} (s : BackgroundNotifier σ) (clock : Clock)
    (a : Action) : LoopState → World σ → LoopState × List Event × World σ
  | LoopState.running, w =>
    match a with
    | Action.select c =>
      let o := s.loopBody clock c w
      (LoopState.after o.val, o.events, o.world)
    | Action.goroutine reminder =>
      let o := s.attempt reminder w
      (LoopState.running, o.events, o.world)
  | LoopState.exited, w =>
    match a with
    | Action.select _ => (LoopState.exited, [], w)
    | Action.goroutine reminder =>
      let o := s.attempt reminder w
      (LoopState.exited, o.events, o.world)

/-- The notifier over a finite schedule of actions. -/
def BackgroundNotifier.loop {σ : Type} (s : BackgroundNotifier σ) (clock : Clock) :
    List Action → LoopState → World σ → LoopState × List Event × World σ
  | [], st, w => (st, [], w)
  | a :: as, st, w =>
    let r1 := s.step clock a st w
    let r2 := BackgroundNotifier.loop s clock as r1.1 r1.2.2
    (r2.1, r1.2.1 ++ r2.2.1, r2.2.2)

/-- `BackgroundNotifier.Start`, observed over a finite schedule of actions. -/
def BackgroundNotifier.Start {σ : Type} (s : BackgroundNotifier σ) (clock : Clock)
    (schedule : List Action) (w : World σ) : LoopState × List Event × World σ :=
  let r := s.loop clock schedule LoopState.running w
  (r.1, Event.log ⟨"background notifier started", []⟩ :: r.2.1, r.2.2)

/-- `BackgroundNotifier.Stop`. -/
def BackgroundNotifier.Stop {σ : Type} (_s : BackgroundNotifier σ) (w : World σ) :
    Outcome σ (Option Error) :=
  ⟨none, [Event.tickerStop, Event.log ⟨"background notifier stopped", []⟩], w⟩

/-! ## Concrete inputs -/

/-- A reminder last modified at the epoch and due one second and five nanoseconds later. -/
def sampleReminder : Reminder :=
  { ID := 7, Duration := 1000000005, ModifiedAt := ⟨0⟩, Completed := false }

/-- A reminder last modified at the epoch and due exactly one second later. -/
def boundaryReminder : Reminder :=
  { ID := 8, Duration := 1000000000, ModifiedAt := ⟨0⟩, Completed := false }

/-- A reminder last modified at the epoch and due five nanoseconds later. -/
def earlyReminder : Reminder :=
  { ID := 9, Duration := 5, ModifiedAt := ⟨0⟩, Completed := false }

/-- A storage collaborator that counts its calls and always succeeds. -/
def okSaver : saver Nat := { save := fun n => (none, n + 1) }

/-- A storage collaborator that counts its calls and always fails. -/
def failingSaver : saver Nat := { save := fun n => (some (Error.plain "disk full"), n + 1) }

/-- A state collaborator that always hands out the same uncompleted reminders
and counts the grooming and retry calls. -/
def fixedService (m : RemindersMap) : snapshotManager Nat :=
  { snapshot := fun n => (⟨m⟩, n)
    snapshotGrooming := fun _ n => n + 1
    retry := fun _ _ n => n + 100 }

/-- A notifier client that always answers with the given delay and error. -/
def fixedClient (d : time.Duration) (e : Option Error) : HTTPNotifierClient Nat :=
  { Notify := fun _ n => ((d, e), n) }

/-- A notifier over the fixed collaborators. -/
def fixedNotifier (m : RemindersMap) (d : time.Duration) (e : Option Error) :
    BackgroundNotifier Nat :=
  NewNotifier (fixedClient d e) (fixedService m)

/-- A clock whose readings are the entries of a list (and the epoch afterwards). -/
def listClock (readings : List Int) : Clock := fun k => ⟨readings.getD k 0⟩

/-- A clock whose two readings within the k-th scan are both `k` seconds. -/
def steppingClock : Clock := fun k => ⟨((k / 2 : Nat) : Int) * time.Second⟩

/-- A clock that advances by ten nanoseconds between the two readings of a
scan, and whose scans start one second apart. -/
def driftingClock : Clock :=
  fun k => ⟨((k / 2 : Nat) : Int) * time.Second + ((k % 2 : Nat) : Int) * 10⟩

/-- A reminder last modified at the epoch and due seven seconds later. -/
def lateReminder : Reminder :=
  { ID := 10, Duration := 7000000000, ModifiedAt := ⟨0⟩, Completed := false }

/-- The world at process start. -/
def startWorld : World Nat := { ext := 0, reads := 0 }

/-- The world in which the k-th tick starts when every snapshot holds one
reminder: each earlier tick has read the clock twice. -/
def tickWorld (k : Nat) : World Nat := { ext := 0, reads := 2 * k }

/-! ## Theorems -/

/-! ### notify and Stop -/

/-- C3. When `Client.Notify(r)` returns delay 0 and no error, `notify(r)` calls
the client, then `snapshotGrooming` once with exactly `r`, then sends `r` once on
`notified`; it emits nothing else (so it never calls `retry`), leaves the
collaborators in the state grooming produced, and returns nil. -/
theorem notify_success {σ : Type} (s : BackgroundNotifier σ) (r : Reminder) (w : World σ)
    (h : (s.Client.Notify r w.ext).1 = (0, none)) :
    (s.notify r w).events = [Event.Notify r, Event.snapshotGrooming [r], Event.send r] ∧
    (s.notify r w).val = none ∧
    (s.notify r w).world.ext = s.service.snapshotGrooming [r] (s.Client.Notify r w.ext).2 := by
  have h1 : (s.Client.Notify r w.ext).1.1 = 0 := by rw [h]
  have h2 : (s.Client.Notify r w.ext).1.2 = none := by rw [h]
  simp [BackgroundNotifier.notify, h1, h2]

/-- Witness of C3 on the fixed collaborators. -/
theorem notify_success_witness :
    ((fixedNotifier [] 0 none).Client.Notify sampleReminder startWorld.ext).1 = (0, none) ∧
    ((fixedNotifier [] 0 none).notify sampleReminder startWorld).events =
      [Event.Notify sampleReminder, Event.snapshotGrooming [sampleReminder],
       Event.send sampleReminder] ∧
    ((fixedNotifier [] 0 none).notify sampleReminder startWorld).val = none ∧
    ((fixedNotifier [] 0 none).notify sampleReminder startWorld).world.ext =
      (fixedNotifier [] 0 none).service.snapshotGrooming [sampleReminder]
        ((fixedNotifier [] 0 none).Client.Notify sampleReminder startWorld.ext).2 :=
  ⟨rfl, notify_success (fixedNotifier [] 0 none) sampleReminder startWorld rfl⟩

/-- C4. When `Client.Notify(r)` returns a nonzero delay `d` (of either sign) and
no error, `notify(r)` calls the client, then `retry` once with exactly `r` and
`d`; it emits nothing else (no `snapshotGrooming`, no send on `notified`),
leaves the collaborators in the state `retry` produced, and returns nil. -/
theorem notify_retry {σ : Type} (s : BackgroundNotifier σ) (r : Reminder) (d : time.Duration)
    (w : World σ) (hd : d ≠ 0) (h : (s.Client.Notify r w.ext).1 = (d, none)) :
    (s.notify r w).events = [Event.Notify r, Event.retry r d] ∧
    (s.notify r w).val = none ∧
    (s.notify r w).world.ext = s.service.retry r d (s.Client.Notify r w.ext).2 := by
  have h1 : (s.Client.Notify r w.ext).1.1 = d := by rw [h]
  have h2 : (s.Client.Notify r w.ext).1.2 = none := by rw [h]
  simp [BackgroundNotifier.notify, h1, h2, hd]

/-- Witness of C4 with a negative delay. -/
theorem notify_retry_witness :
    ((-5 : time.Duration) ≠ 0 ∧
     ((fixedNotifier [] (-5) none).Client.Notify sampleReminder startWorld.ext).1
       = (-5, none)) ∧
    (((fixedNotifier [] (-5) none).notify sampleReminder startWorld).events =
      [Event.Notify sampleReminder, Event.retry sampleReminder (-5)] ∧
    ((fixedNotifier [] (-5) none).notify sampleReminder startWorld).val = none ∧
    ((fixedNotifier [] (-5) none).notify sampleReminder startWorld).world.ext =
      (fixedNotifier [] (-5) none).service.retry sampleReminder (-5)
        ((fixedNotifier [] (-5) none).Client.Notify sampleReminder startWorld.ext).2) :=
  ⟨⟨by decide, rfl⟩,
    notify_retry (fixedNotifier [] (-5) none) sampleReminder (-5) startWorld (by decide) rfl⟩

/-- C5. When `Client.Notify(r)` returns `(d, err)` with `err` non-nil, for any
delay `d`: `notify(r)` only calls the client (no `snapshotGrooming`, no `retry`,
no send on `notified`), leaves the collaborators as the client left them, and
returns the error that wraps `err`; the goroutine of `Start` that ran the
attempt then writes exactly one log entry, whose argument is the ID of `r`. -/
theorem notify_error {σ : Type} (s : BackgroundNotifier σ) (r : Reminder) (d : time.Duration)
    (err : Error) (w : World σ) (h : (s.Client.Notify r w.ext).1 = (d, some err)) :
    (s.notify r w).events = [Event.Notify r] ∧
    (s.notify r w).val = some (WrapError "could not notify reminder" err) ∧
    (s.notify r w).world.ext = (s.Client.Notify r w.ext).2 ∧
    (s.attempt r w).events =
      [Event.Notify r,
       Event.log ⟨"could not notify reminder with id %d", [LogArg.int r.ID]⟩] := by
  have h2 : (s.Client.Notify r w.ext).1.2 = some err := by rw [h]
  simp [BackgroundNotifier.attempt, BackgroundNotifier.notify, h2]

/-- Witness of C5 with a nonzero delay next to the error. -/
theorem notify_error_witness :
    ((fixedNotifier [] 3 (some (Error.plain "refused"))).Client.Notify sampleReminder
        startWorld.ext).1 = (3, some (Error.plain "refused")) ∧
    (((fixedNotifier [] 3 (some (Error.plain "refused"))).notify sampleReminder
        startWorld).events = [Event.Notify sampleReminder] ∧
    ((fixedNotifier [] 3 (some (Error.plain "refused"))).notify sampleReminder
        startWorld).val = some (WrapError "could not notify reminder" (Error.plain "refused")) ∧
    ((fixedNotifier [] 3 (some (Error.plain "refused"))).notify sampleReminder
        startWorld).world.ext =
      ((fixedNotifier [] 3 (some (Error.plain "refused"))).Client.Notify sampleReminder
        startWorld.ext).2 ∧
    ((fixedNotifier [] 3 (some (Error.plain "refused"))).attempt sampleReminder
        startWorld).events =
      [Event.Notify sampleReminder,
       Event.log ⟨"could not notify reminder with id %d", [LogArg.int sampleReminder.ID]⟩]) :=
  ⟨rfl, notify_error (fixedNotifier [] 3 (some (Error.plain "refused"))) sampleReminder 3
    (Error.plain "refused") startWorld rfl⟩

/-- C6. `BackgroundSaver.Stop` stops the ticker first and then calls `save`
exactly once (the only other event is the log line written after a successful
save); it returns exactly what `save` returned: the error when `save` failed,
nil when it succeeded. -/
theorem saver_stop {σ : Type} (s : BackgroundSaver σ) (w : World σ) :
    (s.Stop w).val = (s.service.save w.ext).1 ∧
    (s.Stop w).events.take 2 = [Event.tickerStop, Event.save] ∧
    (s.Stop w).events.count Event.save = 1 ∧
    (s.Stop w).events.drop 2 =
      (if (s.service.save w.ext).1 = none
        then [Event.log ⟨"background saver stopped", []⟩] else []) ∧
    (s.Stop w).world.ext = (s.service.save w.ext).2 := by
  cases hres : (s.service.save w.ext).1 <;>
    simp [BackgroundSaver.Stop, hres, List.count_cons]

/-! ### The scan of one reminder -/

/-- The events of one scan: a goroutine is started exactly when `reminderTick`
lies strictly between the first clock reading and one second after the second. -/
theorem scan_events_eq {σ : Type} (clock : Clock) (snapshot : Snapshot) (w : World σ)
    (id : Int) :
    (BackgroundNotifier.scan clock snapshot w id).events =
      if (clock w.reads).UnixNano < reminderTick (snapshot.UnCompleted.flatten id).2 ∧
          reminderTick (snapshot.UnCompleted.flatten id).2 <
            (clock (w.reads + 1)).UnixNano + time.Second
      then [Event.go (snapshot.UnCompleted.flatten id).2] else [] := by
  simp only [BackgroundNotifier.scan, time.Now, time.Time.Add, time.Time.UnixNano,
    Bool.and_eq_true, decide_eq_true_eq, gt_iff_lt]
  by_cases h : (clock w.reads).wall < reminderTick (snapshot.UnCompleted.flatten id).2 ∧
      reminderTick (snapshot.UnCompleted.flatten id).2 <
        (clock (w.reads + 1)).wall + time.Second
  · rw [if_pos h, if_pos h]
  · rw [if_neg h, if_neg h]

/-- One scan reads the clock twice and leaves the collaborators alone. -/
theorem scan_world {σ : Type} (clock : Clock) (snapshot : Snapshot) (w : World σ) (id : Int) :
    (BackgroundNotifier.scan clock snapshot w id).world =
      { ext := w.ext, reads := w.reads + 2 } := by
  simp only [BackgroundNotifier.scan, time.Now]
  split <;> rfl

/-- The events of the range loop are those of its scans, in order, the scan at
position `i` running after `2 * i` clock readings. -/
theorem scanLoop_events {σ : Type} (clock : Clock) (snapshot : Snapshot) (ks : List Int)
    (w : World σ) :
    (BackgroundNotifier.scanLoop clock snapshot ks w).events =
      ((List.range ks.length).map (fun i =>
        match ks[i]? with
        | some id =>
          (BackgroundNotifier.scan clock snapshot
            { ext := w.ext, reads := w.reads + 2 * i } id).events
        | none => [])).flatten := by
  induction ks generalizing w with
  | nil => simp [BackgroundNotifier.scanLoop]
  | cons id ids ih =>
    simp only [BackgroundNotifier.scanLoop, List.length_cons, List.range_succ_eq_map,
      List.map_cons, List.flatten_cons, List.map_map]
    rw [ih, scan_world]
    congr 1
    · simp only [List.getElem?_cons_zero, Nat.mul_zero, Nat.add_zero]
    · congr 1
      apply List.map_congr_left
      intro i _
      simp only [Function.comp, Nat.succ_eq_add_one, List.getElem?_cons_succ]
      have hreads : w.reads + 2 + 2 * i = w.reads + 2 * (i + 1) := by omega
      rw [hreads]

/-- The events of a tick: the snapshot call, then the events of the scans at
positions 0, 1, ... of the snapshot's keys. -/
theorem onTick_events {σ : Type} (s : BackgroundNotifier σ) (clock : Clock) (w : World σ) :
    (s.onTick clock w).events =
      Event.snapshot ::
        ((List.range (s.service.snapshot w.ext).1.UnCompleted.keys.length).map
          (s.scanEvents clock w)).flatten := by
  simp only [BackgroundNotifier.onTick, scanLoop_events]
  rfl

/-- Every event of a scan of the tick is an event of the tick. -/
theorem mem_onTick_of_mem_scanEvents {σ : Type} (s : BackgroundNotifier σ) (clock : Clock)
    (w : World σ) (i : Nat) (e : Event) (h : e ∈ s.scanEvents clock w i) :
    e ∈ (s.onTick clock w).events := by
  rw [onTick_events]
  have hi : i < (s.service.snapshot w.ext).1.UnCompleted.keys.length := by
    by_contra hge
    have hnone : (s.service.snapshot w.ext).1.UnCompleted.keys[i]? = none :=
      List.getElem?_eq_none (by omega)
    simp [BackgroundNotifier.scanEvents, hnone] at h
  refine List.mem_cons_of_mem _ ?_
  rw [List.mem_flatten]
  exact ⟨s.scanEvents clock w i, List.mem_map.mpr ⟨i, List.mem_range.mpr hi, rfl⟩, h⟩

/-- The events of the scan at position `i`, when the key there is `id`. -/
theorem scanEvents_eq {σ : Type} (s : BackgroundNotifier σ) (clock : Clock) (w : World σ)
    (i : Nat) (id : Int)
    (hkey : (s.service.snapshot w.ext).1.UnCompleted.keys[i]? = some id) :
    s.scanEvents clock w i =
      if (clock (w.reads + 2 * i)).UnixNano <
            reminderTick ((s.service.snapshot w.ext).1.UnCompleted.flatten id).2 ∧
          reminderTick ((s.service.snapshot w.ext).1.UnCompleted.flatten id).2 <
            (clock (w.reads + 2 * i + 1)).UnixNano + time.Second
      then [Event.go ((s.service.snapshot w.ext).1.UnCompleted.flatten id).2] else [] := by
  simp only [BackgroundNotifier.scanEvents, hkey, scan_events_eq,
    BackgroundNotifier.scanWorld]

/-! ### The due window of a tick -/

/-- C1. In the tick handler, for the reminder `r` stored under the key at any
position `i` of the snapshot's uncompleted set: if `reminderTick r` (that is
`ModifiedAt + Duration` in nanoseconds) lies strictly between `now` and `now`
plus one second, where `now` is the clock reading this scan takes for
`nowTick`, and the scan's second clock reading is not earlier than `now`, then
this scan starts a goroutine for `r`, and that start is among the events of
the tick. -/
theorem tick_dispatches_due {σ : Type} (s : BackgroundNotifier σ) (clock : Clock)
    (w : World σ) (i : Nat) (id : Int) (r : Reminder)
    (hkey : (s.service.snapshot w.ext).1.UnCompleted.keys[i]? = some id)
    (hr : ((s.service.snapshot w.ext).1.UnCompleted.flatten id).2 = r)
    (hlo : (clock (w.reads + 2 * i)).UnixNano < reminderTick r)
    (hhi : reminderTick r < (clock (w.reads + 2 * i)).UnixNano + time.Second)
    (hclock : (clock (w.reads + 2 * i)).UnixNano ≤ (clock (w.reads + 2 * i + 1)).UnixNano) :
    s.scanEvents clock w i = [Event.go r] ∧ Event.go r ∈ (s.onTick clock w).events := by
  have hscan : s.scanEvents clock w i = [Event.go r] := by
    rw [scanEvents_eq s clock w i id hkey, hr, if_pos]
    exact ⟨hlo, by omega⟩
  refine ⟨hscan, mem_onTick_of_mem_scanEvents s clock w i _ ?_⟩
  rw [hscan]
  exact List.mem_singleton.mpr rfl

/-- Witness of C1: the clock reads 0 and then 10 ns, the reminder is due at 5 ns. -/
theorem tick_dispatches_due_witness :
    (((fixedNotifier [(9, earlyReminder)] 0 none).service.snapshot
        startWorld.ext).1.UnCompleted.keys[0]? = some 9 ∧
     (((fixedNotifier [(9, earlyReminder)] 0 none).service.snapshot
        startWorld.ext).1.UnCompleted.flatten 9).2 = earlyReminder ∧
     (driftingClock (startWorld.reads + 2 * 0)).UnixNano < reminderTick earlyReminder ∧
     reminderTick earlyReminder <
       (driftingClock (startWorld.reads + 2 * 0)).UnixNano + time.Second ∧
     (driftingClock (startWorld.reads + 2 * 0)).UnixNano ≤
       (driftingClock (startWorld.reads + 2 * 0 + 1)).UnixNano) ∧
    ((fixedNotifier [(9, earlyReminder)] 0 none).scanEvents driftingClock startWorld 0 =
        [Event.go earlyReminder] ∧
     Event.go earlyReminder ∈
       ((fixedNotifier [(9, earlyReminder)] 0 none).onTick driftingClock startWorld).events) :=
  ⟨⟨rfl, rfl, by decide, by decide, by decide⟩,
    tick_dispatches_due (fixedNotifier [(9, earlyReminder)] 0 none) driftingClock startWorld
      0 9 earlyReminder rfl rfl (by decide) (by decide) (by decide)⟩

/-- C2 fails as stated, for either clock reading of the scan taken as `now`.
The clock reads 0 for `nowTick` and 10 ns for `deltaTick`. A reminder due at
1 s + 5 ns has `dueAt >= now + 1 s` for `now = 0`, yet the tick starts a
goroutine for it; a reminder due at 5 ns has `dueAt <= now` for `now = 10 ns`,
yet the tick starts a goroutine for it. -/
theorem window_upper_bound_uses_second_reading :
    (reminderTick sampleReminder ≥ (driftingClock 0).UnixNano + time.Second ∧
     (fixedNotifier [(7, sampleReminder)] 0 none).scanEvents driftingClock startWorld 0 =
       [Event.go sampleReminder] ∧
     ((fixedNotifier [(7, sampleReminder)] 0 none).onTick driftingClock startWorld).events =
       [Event.snapshot, Event.go sampleReminder]) ∧
    (reminderTick earlyReminder ≤ (driftingClock 1).UnixNano ∧
     (fixedNotifier [(9, earlyReminder)] 0 none).scanEvents driftingClock startWorld 0 =
       [Event.go earlyReminder] ∧
     ((fixedNotifier [(9, earlyReminder)] 0 none).onTick driftingClock startWorld).events =
       [Event.snapshot, Event.go earlyReminder]) :=
  ⟨⟨by decide, by decide, by decide⟩, ⟨by decide, by decide, by decide⟩⟩

/-- C2, amended. In the tick handler, for the reminder `r` stored under the key
at any position `i` of the snapshot's uncompleted set: if `reminderTick r` is
at or before the scan's first clock reading (the one taken for `nowTick`), or
at or after one second past the scan's second clock reading (the one taken for
`deltaTick`), then this scan starts no goroutine: it emits no event at all. -/
theorem tick_skips_outside_window {σ : Type} (s : BackgroundNotifier σ) (clock : Clock)
    (w : World σ) (i : Nat) (id : Int) (r : Reminder)
    (hkey : (s.service.snapshot w.ext).1.UnCompleted.keys[i]? = some id)
    (hr : ((s.service.snapshot w.ext).1.UnCompleted.flatten id).2 = r)
    (hout : reminderTick r ≤ (clock (w.reads + 2 * i)).UnixNano ∨
      reminderTick r ≥ (clock (w.reads + 2 * i + 1)).UnixNano + time.Second) :
    s.scanEvents clock w i = [] := by
  rw [scanEvents_eq s clock w i id hkey, hr, if_neg]
  rintro ⟨h1, h2⟩
  omega

/-- Witness of C2, amended: the reminder due at exactly 1 s, clock reading 0 twice. -/
theorem tick_skips_outside_window_witness :
    (((fixedNotifier [(8, boundaryReminder)] 0 none).service.snapshot
        startWorld.ext).1.UnCompleted.keys[0]? = some 8 ∧
     (((fixedNotifier [(8, boundaryReminder)] 0 none).service.snapshot
        startWorld.ext).1.UnCompleted.flatten 8).2 = boundaryReminder ∧
     (reminderTick boundaryReminder ≤ (steppingClock (startWorld.reads + 2 * 0)).UnixNano ∨
      reminderTick boundaryReminder ≥
        (steppingClock (startWorld.reads + 2 * 0 + 1)).UnixNano + time.Second)) ∧
    (fixedNotifier [(8, boundaryReminder)] 0 none).scanEvents steppingClock startWorld 0 = [] :=
  ⟨⟨rfl, rfl, by decide⟩,
    tick_skips_outside_window (fixedNotifier [(8, boundaryReminder)] 0 none) steppingClock
      startWorld 0 8 boundaryReminder rfl rfl (by decide)⟩

/-! ### Due windows across ticks -/

/-- Consecutive open windows of width `S` starting at `t` cover every instant
after `t` and before `t + (n + 1) * S` that is not one of the window starts. -/
theorem window_cover (t due S : Int) (n : Nat) (hlo : t < due)
    (hhi : due < t + ((n : Int) + 1) * S)
    (hgrid : ∀ k : Nat, 1 ≤ k → k ≤ n → due ≠ t + (k : Int) * S) :
    ∃ k : Nat, k ≤ n ∧ t + (k : Int) * S < due ∧ due < t + ((k : Int) + 1) * S := by
  induction n with
  | zero =>
    refine ⟨0, le_refl _, ?_, ?_⟩
    · simpa using hlo
    · simpa using hhi
  | succ n ih =>
    have hcast : ((n + 1 : Nat) : Int) = (n : Int) + 1 := by push_cast; rfl
    rcases lt_trichotomy due (t + ((n : Int) + 1) * S) with hlt | heq | hgt
    · obtain ⟨k, hk, h1, h2⟩ :=
        ih hlt (fun k hk1 hkn => hgrid k hk1 (Nat.le_succ_of_le hkn))
      exact ⟨k, Nat.le_succ_of_le hk, h1, h2⟩
    · exact absurd (by rw [hcast]; exact heq) (hgrid (n + 1) (by omega) (le_refl _))
    · refine ⟨n + 1, le_refl _, ?_, ?_⟩
      · rw [hcast]; exact hgt
      · exact hhi

/-- C8 fails as stated. Both clock readings of the first scan are `t = 0`, both
of the second scan are `t + 1 s`; the reminder due at exactly 1 s lies
strictly after `t` and strictly before `t + 2 s`, is in both snapshots
unchanged, and neither tick starts a goroutine for it. -/
theorem boundary_reminder_missed :
    ((steppingClock 0).UnixNano = 0 ∧ (steppingClock 1).UnixNano = 0 ∧
     (steppingClock 2).UnixNano = 0 + 1 * time.Second ∧
     (steppingClock 3).UnixNano = 0 + 1 * time.Second) ∧
    (0 < reminderTick boundaryReminder ∧
     reminderTick boundaryReminder < 0 + (1 + 1) * time.Second) ∧
    ((fixedNotifier [(8, boundaryReminder)] 0 none).onTick steppingClock startWorld).events =
      [Event.snapshot] ∧
    ((fixedNotifier [(8, boundaryReminder)] 0 none).onTick steppingClock startWorld).world.reads
      = 2 ∧
    ((fixedNotifier [(8, boundaryReminder)] 0 none).onTick steppingClock
      ((fixedNotifier [(8, boundaryReminder)] 0 none).onTick steppingClock
        startWorld).world).events = [Event.snapshot] :=
  ⟨⟨by decide, by decide, by decide, by decide⟩, ⟨by decide, by decide⟩,
    by decide, by decide, by decide⟩

/-- C8, amended. Take scans `0, ..., n`, scan `k` sitting at position `p k` of
the tick handler started in world `W k`, whose first clock reading (the one
for `nowTick`) is exactly `t + k * 1 s` and whose second reading is not earlier.
A reminder that every one of these scans finds with the same `ModifiedAt = m`
and `Duration = d`, whose due time `m + d` lies strictly after `t`, strictly
before `t + (n + 1) * 1 s`, and is not one of the scan instants `t + k * 1 s`
for `1 <= k <= n`, gets a goroutine started by at least one of the scans. -/
theorem due_reminder_dispatched_off_grid {σ : Type} (s : BackgroundNotifier σ)
    (clock : Clock) (n : Nat) (t : Int) (m : time.Time) (d : time.Duration)
    (W : Nat → World σ) (p : Nat → Nat) (id : Nat → Int)
    (hkey : ∀ k, k ≤ n →
      (s.service.snapshot (W k).ext).1.UnCompleted.keys[p k]? = some (id k))
    (hsame : ∀ k, k ≤ n →
      ((s.service.snapshot (W k).ext).1.UnCompleted.flatten (id k)).2.ModifiedAt = m ∧
      ((s.service.snapshot (W k).ext).1.UnCompleted.flatten (id k)).2.Duration = d)
    (hnow : ∀ k, k ≤ n →
      (clock ((W k).reads + 2 * p k)).UnixNano = t + (k : Int) * time.Second)
    (hsecond : ∀ k, k ≤ n →
      (clock ((W k).reads + 2 * p k)).UnixNano ≤ (clock ((W k).reads + 2 * p k + 1)).UnixNano)
    (hlo : t < (m.Add d).UnixNano)
    (hhi : (m.Add d).UnixNano < t + ((n : Int) + 1) * time.Second)
    (hgrid : ∀ k : Nat, 1 ≤ k → k ≤ n → (m.Add d).UnixNano ≠ t + (k : Int) * time.Second) :
    ∃ k, k ≤ n ∧ s.scanEvents clock (W k) (p k) =
      [Event.go ((s.service.snapshot (W k).ext).1.UnCompleted.flatten (id k)).2] := by
  obtain ⟨k, hk, h1, h2⟩ := window_cover t (m.Add d).UnixNano time.Second n hlo hhi hgrid
  refine ⟨k, hk, ?_⟩
  have htick :
      reminderTick ((s.service.snapshot (W k).ext).1.UnCompleted.flatten (id k)).2 =
        (m.Add d).UnixNano := by
    unfold reminderTick
    rw [(hsame k hk).1, (hsame k hk).2]
  rw [scanEvents_eq s clock (W k) (p k) (id k) (hkey k hk), if_pos]
  rw [htick, hnow k hk]
  refine ⟨h1, ?_⟩
  have h3 := hsecond k hk
  rw [hnow k hk] at h3
  have h4 : t + ((k : Int) + 1) * time.Second = t + (k : Int) * time.Second + time.Second := by
    ring
  omega

/-- Witness of C8, amended: two scans one second apart, a reminder due at 5 ns. -/
theorem due_reminder_dispatched_off_grid_witness :
    ((0 : Int) < ((⟨0⟩ : time.Time).Add 5).UnixNano ∧
     ((⟨0⟩ : time.Time).Add 5).UnixNano < 0 + (((1 : Nat) : Int) + 1) * time.Second) ∧
    ∃ k, k ≤ 1 ∧
      (fixedNotifier [(9, earlyReminder)] 0 none).scanEvents steppingClock (tickWorld k) 0 =
        [Event.go (((fixedNotifier [(9, earlyReminder)] 0 none).service.snapshot
          (tickWorld k).ext).1.UnCompleted.flatten 9).2] :=
  ⟨⟨by decide, by decide⟩,
    due_reminder_dispatched_off_grid (fixedNotifier [(9, earlyReminder)] 0 none)
      steppingClock 1 0 ⟨0⟩ 5 tickWorld (fun _ => 0) (fun _ => 9)
      (fun _ _ => rfl) (fun _ _ => ⟨rfl, rfl⟩)
      (fun k _ => by
        show ((((2 * k + 2 * 0) / 2 : Nat) : Int)) * time.Second = 0 + (k : Int) * time.Second
        have h : (2 * k + 2 * 0) / 2 = k := by omega
        rw [h, zero_add])
      (fun k _ => le_of_eq (by
        show ((((2 * k + 2 * 0) / 2 : Nat) : Int)) * time.Second
          = ((((2 * k + 2 * 0 + 1) / 2 : Nat) : Int)) * time.Second
        have h1 : (2 * k + 2 * 0) / 2 = k := by omega
        have h2 : (2 * k + 2 * 0 + 1) / 2 = k := by omega
        rw [h1, h2]))
      (by decide) (by decide)
      (fun k h1 _ => by
        show (0 : Int) + 5 ≠ 0 + (k : Int) * 1000000000
        omega)⟩

/-- C9. Take a scan `a` (position `ia` of the tick handler started in `wa`) at
which the reminder is overdue: its due time is at or before a clock reading of
that scan. At every later scan `b` (its clock readings come after those of `a`,
the clock never going backwards) that finds the reminder with the same
`ModifiedAt` and `Duration`, no goroutine is started: the scan emits nothing. -/
theorem overdue_never_dispatched {σ : Type} (s : BackgroundNotifier σ) (clock : Clock)
    (wa wb : World σ) (ia ib : Nat) (ida idb : Int) (ra rb : Reminder)
    (_hka : (s.service.snapshot wa.ext).1.UnCompleted.keys[ia]? = some ida)
    (_hra : ((s.service.snapshot wa.ext).1.UnCompleted.flatten ida).2 = ra)
    (hkb : (s.service.snapshot wb.ext).1.UnCompleted.keys[ib]? = some idb)
    (hrb : ((s.service.snapshot wb.ext).1.UnCompleted.flatten idb).2 = rb)
    (hsame : rb.ModifiedAt = ra.ModifiedAt ∧ rb.Duration = ra.Duration)
    (hoverdue : reminderTick ra ≤ (clock (wa.reads + 2 * ia)).UnixNano ∨
      reminderTick ra ≤ (clock (wa.reads + 2 * ia + 1)).UnixNano)
    (hlater : wa.reads + 2 * ia + 1 < wb.reads + 2 * ib)
    (hmono : ∀ j k : Nat, j ≤ k → (clock j).UnixNano ≤ (clock k).UnixNano) :
    s.scanEvents clock wb ib = [] := by
  have htick : reminderTick rb = reminderTick ra := by
    unfold reminderTick
    rw [hsame.1, hsame.2]
  have hnow : reminderTick rb ≤ (clock (wb.reads + 2 * ib)).UnixNano := by
    rw [htick]
    rcases hoverdue with h | h
    · exact le_trans h (hmono _ _ (by omega))
    · exact le_trans h (hmono _ _ (by omega))
  rw [scanEvents_eq s clock wb ib idb hkb, hrb, if_neg]
  rintro ⟨h1, _⟩
  omega

/-- Witness of C9: the reminder due at exactly 1 s is overdue at the scan whose
clock reads 1 s, and is scanned again one second later. -/
theorem overdue_never_dispatched_witness :
    (reminderTick boundaryReminder ≤ (steppingClock ((tickWorld 1).reads + 2 * 0)).UnixNano ∧
     (tickWorld 1).reads + 2 * 0 + 1 < (tickWorld 2).reads + 2 * 0) ∧
    (fixedNotifier [(8, boundaryReminder)] 0 none).scanEvents steppingClock (tickWorld 2) 0
      = [] :=
  ⟨⟨by decide, by decide⟩,
    overdue_never_dispatched (fixedNotifier [(8, boundaryReminder)] 0 none) steppingClock
      (tickWorld 1) (tickWorld 2) 0 0 8 8 boundaryReminder boundaryReminder rfl rfl rfl rfl
      ⟨rfl, rfl⟩ (Or.inl (by decide)) (by decide)
      (fun j k hjk => by
        show (((j / 2 : Nat) : Int)) * time.Second ≤ (((k / 2 : Nat) : Int)) * time.Second
        have h : j / 2 ≤ k / 2 := Nat.div_le_div_right hjk
        have h2 : ((j / 2 : Nat) : Int) ≤ ((k / 2 : Nat) : Int) := by exact_mod_cast h
        exact Int.mul_le_mul_of_nonneg_right h2 (by decide))⟩

/-- C10 fails as stated. First, with the clock advancing 10 ns between the two
readings of a scan and the scans starting exactly 1 s apart (`now` reads 0 and
then 1 s), the unchanged reminder due at 1 s + 5 ns gets a goroutine on both
ticks. Second, with readings 0 and 10 s in one scan and 5 s and 15 s in the
other, every reading of one scan is at least 1 s away from every reading of
the other, and the unchanged reminder due at 7 s gets a goroutine on both. -/
theorem windows_overlap_by_read_gap :
    ((driftingClock 2).UnixNano - (driftingClock 0).UnixNano ≥ time.Second ∧
     ((fixedNotifier [(7, sampleReminder)] 0 none).onTick driftingClock (tickWorld 0)).events =
       [Event.snapshot, Event.go sampleReminder] ∧
     ((fixedNotifier [(7, sampleReminder)] 0 none).onTick driftingClock (tickWorld 0)).world.reads
       = (tickWorld 1).reads ∧
     ((fixedNotifier [(7, sampleReminder)] 0 none).onTick driftingClock (tickWorld 1)).events =
       [Event.snapshot, Event.go sampleReminder]) ∧
    ((listClock [0, 10000000000, 5000000000, 15000000000] 0).UnixNano =
        0 ∧
     (listClock [0, 10000000000, 5000000000, 15000000000] 1).UnixNano =
        10 * time.Second ∧
     (listClock [0, 10000000000, 5000000000, 15000000000] 2).UnixNano =
        5 * time.Second ∧
     (listClock [0, 10000000000, 5000000000, 15000000000] 3).UnixNano =
        15 * time.Second ∧
     ((fixedNotifier [(10, lateReminder)] 0 none).onTick
        (listClock [0, 10000000000, 5000000000, 15000000000]) (tickWorld 0)).events =
       [Event.snapshot, Event.go lateReminder] ∧
     ((fixedNotifier [(10, lateReminder)] 0 none).onTick
        (listClock [0, 10000000000, 5000000000, 15000000000]) (tickWorld 1)).events =
       [Event.snapshot, Event.go lateReminder]) :=
  ⟨⟨by decide, by decide, by decide, by decide⟩,
    ⟨by decide, by decide, by decide, by decide, by decide, by decide⟩⟩

/-- C10, amended. For two scans that find a reminder with the same `ModifiedAt`
and `Duration`: if the first clock reading of one scan (its `now`) is at least
one second after the second clock reading of the other scan (the reading its
upper bound is computed from), then at most one of the two scans starts a
goroutine for the reminder: one of them emits nothing. -/
theorem windows_disjoint_when_spaced {σ : Type} (s : BackgroundNotifier σ) (clock : Clock)
    (wa wb : World σ) (ia ib : Nat) (ida idb : Int) (ra rb : Reminder)
    (hka : (s.service.snapshot wa.ext).1.UnCompleted.keys[ia]? = some ida)
    (hra : ((s.service.snapshot wa.ext).1.UnCompleted.flatten ida).2 = ra)
    (hkb : (s.service.snapshot wb.ext).1.UnCompleted.keys[ib]? = some idb)
    (hrb : ((s.service.snapshot wb.ext).1.UnCompleted.flatten idb).2 = rb)
    (hsame : rb.ModifiedAt = ra.ModifiedAt ∧ rb.Duration = ra.Duration)
    (hapart :
      (clock (wa.reads + 2 * ia + 1)).UnixNano + time.Second ≤
        (clock (wb.reads + 2 * ib)).UnixNano ∨
      (clock (wb.reads + 2 * ib + 1)).UnixNano + time.Second ≤
        (clock (wa.reads + 2 * ia)).UnixNano) :
    s.scanEvents clock wa ia = [] ∨ s.scanEvents clock wb ib = [] := by
  have htick : reminderTick rb = reminderTick ra := by
    unfold reminderTick
    rw [hsame.1, hsame.2]
  rw [scanEvents_eq s clock wa ia ida hka, scanEvents_eq s clock wb ib idb hkb, hra, hrb,
    htick]
  by_cases ha : (clock (wa.reads + 2 * ia)).UnixNano < reminderTick ra ∧
      reminderTick ra < (clock (wa.reads + 2 * ia + 1)).UnixNano + time.Second
  · right
    rw [if_neg]
    rintro ⟨h1, h2⟩
    obtain ⟨h3, h4⟩ := ha
    rcases hapart with h | h <;> omega
  · left
    rw [if_neg ha]

/-- Witness of C10, amended: both readings of each scan agree, the scans are
one second apart, and the reminder is due at 5 ns. -/
theorem windows_disjoint_when_spaced_witness :
    ((steppingClock ((tickWorld 0).reads + 2 * 0 + 1)).UnixNano + time.Second ≤
      (steppingClock ((tickWorld 1).reads + 2 * 0)).UnixNano) ∧
    ((fixedNotifier [(9, earlyReminder)] 0 none).scanEvents steppingClock (tickWorld 0) 0 = [] ∨
     (fixedNotifier [(9, earlyReminder)] 0 none).scanEvents steppingClock (tickWorld 1) 0 = []) :=
  ⟨by decide,
    windows_disjoint_when_spaced (fixedNotifier [(9, earlyReminder)] 0 none) steppingClock
      (tickWorld 0) (tickWorld 1) 0 0 9 9 earlyReminder earlyReminder rfl rfl rfl rfl
      ⟨rfl, rfl⟩ (Or.inl (by decide))⟩

/-! ### The loops of Start -/

/-- The body of the saver loop calls `save` once, on the collaborators' current
state, logs its error if it failed, and never leaves the loop. -/
theorem saver_loopBody {σ : Type} (s : BackgroundSaver σ) (w : World σ) :
    (s.loopBody w).val = Control.next ∧
    (s.loopBody w).events =
      Event.save ::
        (match (s.service.save w.ext).1 with
         | some err =>
           [Event.log ⟨"could not save records in background: %v", [LogArg.err err]⟩]
         | none => []) ∧
    (s.loopBody w).events.count Event.save = 1 ∧
    (s.loopBody w).world = { ext := (s.service.save w.ext).2, reads := w.reads } := by
  cases hres : (s.service.save w.ext).1 <;>
    simp [BackgroundSaver.loopBody, hres, List.count_cons]

/-- The saver loop is still running after any number of ticks, has called
`save` once per tick, and leaves the collaborators in the state that many
successive calls of `save` produce. -/
theorem saver_loop_running {σ : Type} (s : BackgroundSaver σ) (n : Nat) (w : World σ) :
    (s.loop n LoopState.running w).1 = LoopState.running ∧
    (s.loop n LoopState.running w).2.1.count Event.save = n ∧
    (s.loop n LoopState.running w).2.2 =
      { ext := (fun e => (s.service.save e).2)^[n] w.ext, reads := w.reads } := by
  induction n generalizing w with
  | zero => simp [BackgroundSaver.loop]
  | succ n ih =>
    have hb := saver_loopBody s w
    simp only [BackgroundSaver.loop, BackgroundSaver.step, hb.1, LoopState.after,
      List.count_append, hb.2.2.1, hb.2.2.2, Function.iterate_succ_apply]
    refine ⟨(ih _).1, ?_, (ih _).2.2⟩
    rw [(ih _).2.1]
    omega

/-- A step of the notifier taken in the running state ends in the running state. -/
theorem notifier_step_running {σ : Type} (s : BackgroundNotifier σ) (clock : Clock)
    (a : Action) (w : World σ) :
    (s.step clock a LoopState.running w).1 = LoopState.running := by
  cases a with
  | select c => cases c <;> rfl
  | goroutine r => rfl

/-- The notifier loop is still running after any finite schedule. -/
theorem notifier_loop_running {σ : Type} (s : BackgroundNotifier σ) (clock : Clock)
    (schedule : List Action) (w : World σ) :
    (s.loop clock schedule LoopState.running w).1 = LoopState.running := by
  induction schedule generalizing w with
  | nil => rfl
  | cons a rest ih =>
    simp only [BackgroundNotifier.loop, notifier_step_running]
    exact ih _

/-- C7. Each `Start` loop as a step function over its ticks.

A tick of `BackgroundSaver.Start` taken in the running state ends in the
running state, for every storage collaborator (so whether `save` succeeds or
fails). It calls `save` exactly once: its events are the `save` call, followed
by the log line carrying the error when `save` failed and by nothing when it
succeeded, and it leaves the collaborators in exactly the state that one call
of `save` on the state before the tick produces. After any number of ticks the
loop is running, has recorded one `save` call per tick, and has left the
collaborators in the state that many successive `save` calls produce.

A step of `BackgroundNotifier.Start` taken in the running state ends in the
running state: the ticker case does what the tick handler does, the `notified`
case writes its log line, and a spawned goroutine does what its notify attempt
does, against any client and whatever that attempt returns. Every finite
schedule of such steps ends in the running state. -/
theorem start_loops_stay_running {σ τ : Type} (sv : BackgroundSaver σ)
    (nt : BackgroundNotifier τ) (clock : Clock) :
    (∀ w : World σ,
      (sv.step LoopState.running w).1 = LoopState.running ∧
      (sv.step LoopState.running w).2.1 =
        Event.save ::
          (match (sv.service.save w.ext).1 with
           | some err =>
             [Event.log ⟨"could not save records in background: %v", [LogArg.err err]⟩]
           | none => []) ∧
      (sv.step LoopState.running w).2.1.count Event.save = 1 ∧
      (sv.step LoopState.running w).2.2 =
        { ext := (sv.service.save w.ext).2, reads := w.reads }) ∧
    (∀ (ticks : Nat) (w : World σ),
      (sv.Start ticks w).1 = LoopState.running ∧
      (sv.Start ticks w).2.1.count Event.save = ticks ∧
      (sv.Start ticks w).2.2 =
        { ext := (fun e => (sv.service.save e).2)^[ticks] w.ext, reads := w.reads }) ∧
    (∀ (a : Action) (w : World τ),
      (nt.step clock a LoopState.running w).1 = LoopState.running) ∧
    (∀ w : World τ,
      (nt.step clock (Action.select Select.tick) LoopState.running w).2 =
        ((nt.onTick clock w).events, (nt.onTick clock w).world)) ∧
    (∀ (r : Reminder) (w : World τ),
      (nt.step clock (Action.select (Select.notified r)) LoopState.running w).2 =
        ([Event.log ⟨"notified reminder with with: %d\n", [LogArg.int r.ID]⟩], w)) ∧
    (∀ (r : Reminder) (w : World τ),
      (nt.step clock (Action.goroutine r) LoopState.running w).2 =
        ((nt.attempt r w).events, (nt.attempt r w).world)) ∧
    (∀ (schedule : List Action) (w : World τ),
      (nt.Start clock schedule w).1 = LoopState.running) := by
  refine ⟨?_, ?_, ?_, ?_, ?_, ?_, ?_⟩
  · intro w
    have hb := saver_loopBody sv w
    refine ⟨?_, ?_, ?_, ?_⟩
    · simp only [BackgroundSaver.step, hb.1, LoopState.after]
    · simp only [BackgroundSaver.step, hb.2.1]
    · simp only [BackgroundSaver.step, hb.2.2.1]
    · simp only [BackgroundSaver.step, hb.2.2.2]
  · intro ticks w
    have hl := saver_loop_running sv ticks w
    refine ⟨?_, ?_, ?_⟩
    · simp only [BackgroundSaver.Start, hl.1]
    · simp only [BackgroundSaver.Start, List.count_cons, hl.2.1]
      simp
    · simp only [BackgroundSaver.Start, hl.2.2]
  · intro a w
    exact notifier_step_running nt clock a w
  · intro w
    rfl
  · intro r w
    rfl
  · intro r w
    rfl
  · intro schedule w
    exact notifier_loop_running nt clock schedule w

end Reminders
